import Mathlib

/-
Verification development for the Creem webhook reconciler
(src/app/api/webhook/creem/route.ts) and the payment-history data-access
helpers.  The handler is embedded as a pure function from a webhook event
and a store snapshot to a response and a new store.  JavaScript undefined
and null are modelled as Option.none; a property access on a nullish value
is a thrown TypeError, which the handler's single try/catch turns into the
generic 500 response.  Calendar arithmetic (Date.setMonth / setFullYear)
is abstracted as a Clock record supplying now and the two period-advancing
functions.
-/

namespace Creem

/-- A JavaScript number produced by parseInt: none models NaN. -/
abbrev JsInt := Option Int

/-- A JavaScript number produced by parseFloat: none models NaN.  A
parsed decimal is kept exactly as an unnormalized mantissa and
fraction-digit count, so some (m, e) denotes m divided by 10 to the e;
the handler never computes with the parsed amount, only stores it. -/
abbrev JsFloat := Option (Int × Nat)

/-- JavaScript addition on possibly-NaN integers: NaN is absorbing. -/
def jsAdd : JsInt → JsInt → JsInt
  | some x, some y => some (x + y)
  | _, _ => none

/-- JavaScript (x || d) on an optional string: undefined and the empty
string are falsy and give the default. -/
def jsOr : Option String → String → String
  | some s, d => if s = "" then d else s
  | none, d => d

/-- Value of a list of decimal digit characters. -/
def digitsToNat (ds : List Char) : Nat :=
  ds.foldl (fun a c => a * 10 + (c.toNat - 48)) 0

/-- JavaScript parseInt on a string: leading whitespace is skipped,
then an optional sign and the longest leading run of decimal digits;
no digits gives NaN (none).  Radix prefixes are not modelled (never
exercised by the handler's inputs). -/
def jsParseInt (s : String) : JsInt :=
  match s.toList.dropWhile Char.isWhitespace with
  | '-' :: rest =>
      let ds := rest.takeWhile Char.isDigit
      if ds.isEmpty then none else some (-(digitsToNat ds : Int))
  | '+' :: rest =>
      let ds := rest.takeWhile Char.isDigit
      if ds.isEmpty then none else some ((digitsToNat ds : Int))
  | cs =>
      let ds := cs.takeWhile Char.isDigit
      if ds.isEmpty then none else some ((digitsToNat ds : Int))

/-- Leading decimal literal of a character list: integer digits then an
optional dot and fraction digits, returned as mantissa and
fraction-digit count. -/
def decimalCore (cs : List Char) : JsFloat :=
  let intds := cs.takeWhile Char.isDigit
  let rest := cs.drop intds.length
  let fracds := match rest with
    | '.' :: r => r.takeWhile Char.isDigit
    | _ => []
  if intds.isEmpty ∧ fracds.isEmpty then none
  else some ((digitsToNat (intds ++ fracds) : Int), fracds.length)

/-- JavaScript parseFloat on a string: optional sign then a decimal
literal; no digits gives NaN (none).  Exponent suffixes are not
modelled (never exercised by the handler's inputs). -/
def jsParseFloat (s : String) : JsFloat :=
  match s.toList.dropWhile Char.isWhitespace with
  | '-' :: rest => (decimalCore rest).map (fun q => (-q.1, q.2))
  | '+' :: rest => decimalCore rest
  | cs => decimalCore cs

/-- Customer part of the webhook payload. -/
structure Customer where
  id : Option String
deriving DecidableEq

/-- Product part of the webhook payload. -/
structure Product where
  id : Option String
  billing_type : Option String
deriving DecidableEq

/-- The open-ended metadata mapping of the webhook payload, restricted
to the keys the handler reads; each is optional since the mapping is
untyped at the source. -/
structure Metadata where
  userId : Option String
  credit : Option String
  subscriptionPlanId : Option String
  amount : Option String
  interval : Option String
deriving DecidableEq

/-- Nested object of the WebhookResponse shape.  Every field may be
absent in the untrusted JSON body, hence Option throughout. -/
structure WebhookObject where
  request_id : Option String
  id : Option String
  customer : Option Customer
  product : Option Product
  status : Option String
  metadata : Option Metadata
deriving DecidableEq

/-- Incoming webhook event (the WebhookResponse interface).  The object
itself may be absent from a malformed body. -/
structure Webhook where
  id : Option String
  eventType : Option String
  object : Option WebhookObject
deriving DecidableEq

/-- Subscription lifecycle status (UserSubscriptionStatusEnum). -/
inductive UserSubscriptionStatusEnum where
  | ACTIVE
  | CANCELLED
  | EXPIRED
deriving DecidableEq

/-- Per-user credit usage record. -/
structure CreditUsage where
  user_uuid : Option String
  credit_used : JsInt
  credit_total : JsInt
  period_start : Int
  period_end : Int
deriving DecidableEq

/-- Per-user subscription record. -/
structure UserSubscription where
  user_uuid : Option String
  subscription_plan_id : JsInt
  status : UserSubscriptionStatusEnum
  current_period_start : Int
  current_period_end : Int
  stripe_subscription_id : Option String
  stripe_customer_id : Option String
deriving DecidableEq

/-- Payment history row as created by the handler; the part_000 service
stores the same row with columns user_id and status. -/
structure PaymentHistory where
  user_uuid : Option String
  subscription_plan_id : JsInt
  amount : JsFloat
  interval : String
  payment_status : String
  payment_intent_id : Option String
deriving DecidableEq

/-- Snapshot of the three tables the handler touches. -/
structure Store where
  credits : List CreditUsage
  subs : List UserSubscription
  payments : List PaymentHistory
deriving DecidableEq

/-- Partial update payload for a subscription record: a field that is
none is not part of the update and keeps its stored value. -/
structure SubscriptionPatch where
  user_uuid : Option String
  subscription_plan_id : Option JsInt
  status : Option UserSubscriptionStatusEnum
  current_period_start : Option Int
  current_period_end : Option Int
  stripe_subscription_id : Option (Option String)
  stripe_customer_id : Option (Option String)

/-- Modelled from the spec: the credit-usage service file is not in the
sources; getByUser(userId) returns the user's credit-usage record or
absent. -/
def getCreditUsageByUserId (user_uuid : Option String) (st : Store) : Option CreditUsage :=
  st.credits.find? (fun c => c.user_uuid == user_uuid)

/-- Modelled from the spec: the credit-usage service file is not in the
sources; create(CreditUsage) inserts a new row. -/
def createCreditUsage (cu : CreditUsage) (st : Store) : Store :=
  { st with credits := st.credits ++ [cu] }

/-- Modelled from the spec: the credit-usage service file is not in the
sources; update(CreditUsage) replaces the row keyed by the user id. -/
def updateCreditUsage (cu : CreditUsage) (st : Store) : Store :=
  { st with credits := st.credits.map (fun c => if c.user_uuid = cu.user_uuid then cu else c) }

/-- Modelled from the spec: the user-subscription service file is not in
the sources; getByUser(userId) returns the list of the user's
subscription records (possibly empty). -/
def getUserSubscriptionByUserId (user_uuid : Option String) (st : Store) : List UserSubscription :=
  st.subs.filter (fun s => s.user_uuid == user_uuid)

/-- Modelled from the spec: the user-subscription service file is not in
the sources; create(Subscription) inserts a new row. -/
def createUserSubscription (s : UserSubscription) (st : Store) : Store :=
  { st with subs := st.subs ++ [s] }

/-- Effect of a partial update on one stored subscription row: provided
fields are overwritten, absent fields keep their stored value. -/
def applyPatch (p : SubscriptionPatch) (s : UserSubscription) : UserSubscription :=
  { user_uuid := s.user_uuid
    subscription_plan_id := p.subscription_plan_id.getD s.subscription_plan_id
    status := p.status.getD s.status
    current_period_start := p.current_period_start.getD s.current_period_start
    current_period_end := p.current_period_end.getD s.current_period_end
    stripe_subscription_id := p.stripe_subscription_id.getD s.stripe_subscription_id
    stripe_customer_id := p.stripe_customer_id.getD s.stripe_customer_id }

/-- Modelled from the spec: the user-subscription service file is not in
the sources; update applies a partial Subscription payload to the rows
keyed by the user id. -/
def updateUserSubscription (p : SubscriptionPatch) (st : Store) : Store :=
  { st with subs := st.subs.map (fun s => if s.user_uuid = p.user_uuid then applyPatch p s else s) }

/-- Modelled from the spec: the payment-history service imported by the
route is not in the sources; create(PaymentHistory) inserts a new row. -/
def createPaymentHistory (ph : PaymentHistory) (st : Store) : Store :=
  { st with payments := st.payments ++ [ph] }

/-- From part_000: counts the payment-history rows of the user whose
status column equals the literal string success, and reports whether
there is at least one.  The status column holds what the handler writes
into payment_status. -/
def hasSuccessfulPaymentByUserId (user_id : String) (st : Store) : Bool :=
  0 < (st.payments.filter (fun r => r.user_uuid == some user_id && r.payment_status == "success")).length

/-- Body of a NextResponse.json call made by the handler. -/
inductive RBody where
  | success (ok : Bool) (message : String)
  | failure (error : String)
deriving DecidableEq

/-- HTTP response of the handler: status code and JSON body. -/
structure Response where
  status : Nat
  body : RBody
deriving DecidableEq

/-- The 200 acknowledgement the handler returns on success. -/
def okResponse : Response :=
  { status := 200, body := RBody.success true "Webhook received successfully" }

/-- The generic 500 response of the catch block. -/
def errResponse : Response :=
  { status := 500, body := RBody.failure "Webhook processing failed" }

/-- Abstraction of the Date arithmetic of the handler: now is the
current instant, plusMonth and plusYear the setMonth(+1) and
setFullYear(+1) computations, all on an integer timestamp scale. -/
structure Clock where
  now : Int
  plusMonth : Int → Int
  plusYear : Int → Int

/-- The POST handler of src/app/api/webhook/creem/route.ts as a pure
function.  A match arm returning errResponse marks a property access
that throws a TypeError on a nullish value in the source; every throw
point precedes the first store mutation on its path, so the catch block
always leaves the store as it found it.  Note that on the one-time path
the source reads credit_usage_from_db.period_end (line 122) before the
null check on line 126, so a missing credit-usage record throws and the
create branch of lines 127-133 is unreachable. -/
def creemPOST (clk : Clock) (webhook : Webhook) (st : Store) : Response × Store :=
  match webhook.object with
  | none => (errResponse, st)
  | some o =>
    match o.product with
    | none => (errResponse, st)
    | some product =>
      let isSubscription := product.billing_type = some "recurring"
      if ¬ isSubscription then
        if webhook.eventType = some "checkout.completed" then
          match o.customer with
          | none => (errResponse, st)
          | some _customer =>
            let userId := o.request_id
            let tentativeEnd := clk.plusMonth clk.now
            match getCreditUsageByUserId userId st with
            | none => (errResponse, st)
            | some credit_usage_from_db =>
              let newPeriodEnd :=
                if credit_usage_from_db.period_end > tentativeEnd then
                  credit_usage_from_db.period_end
                else tentativeEnd
              let st1 := updateCreditUsage
                { user_uuid := userId
                  credit_used := credit_usage_from_db.credit_used
                  credit_total := jsAdd credit_usage_from_db.credit_total
                    (jsParseInt (jsOr (o.metadata.bind Metadata.credit) "100"))
                  period_start := credit_usage_from_db.period_start
                  period_end := newPeriodEnd } st
              let st2 := createPaymentHistory
                { user_uuid := userId
                  subscription_plan_id := jsParseInt (jsOr (o.metadata.bind Metadata.subscriptionPlanId) "1")
                  amount := jsParseFloat (jsOr (o.metadata.bind Metadata.amount) "0")
                  interval := jsOr (o.metadata.bind Metadata.interval) "month"
                  payment_status := "completed"
                  payment_intent_id := o.id } st1
              (okResponse, st2)
        else
          (okResponse, st)
      else
        if webhook.eventType = some "subscription.paid" then
          match o.metadata with
          | none => (errResponse, st)
          | some metadata =>
            match o.customer with
            | none => (errResponse, st)
            | some customer =>
              let userId := metadata.userId
              let newPeriodEnd :=
                if metadata.interval = some "year" then clk.plusYear clk.now
                else clk.plusMonth clk.now
              let existingSubscription := getUserSubscriptionByUserId userId st
              let st1 :=
                if existingSubscription.isEmpty then
                  createUserSubscription
                    { user_uuid := userId
                      subscription_plan_id := jsParseInt (jsOr metadata.subscriptionPlanId "1")
                      status := UserSubscriptionStatusEnum.ACTIVE
                      current_period_start := clk.now
                      current_period_end := newPeriodEnd
                      stripe_subscription_id := o.id
                      stripe_customer_id := customer.id } st
                else
                  updateUserSubscription
                    { user_uuid := userId
                      subscription_plan_id := some (jsParseInt (jsOr metadata.subscriptionPlanId "1"))
                      status := some UserSubscriptionStatusEnum.ACTIVE
                      current_period_start := some clk.now
                      current_period_end := some newPeriodEnd
                      stripe_subscription_id := some o.id
                      stripe_customer_id := some customer.id } st
              let st2 :=
                match getCreditUsageByUserId userId st1 with
                | none =>
                  createCreditUsage
                    { user_uuid := userId
                      credit_used := some 0
                      credit_total := jsParseInt (jsOr metadata.credit "1000")
                      period_start := clk.now
                      period_end := newPeriodEnd } st1
                | some _ =>
                  updateCreditUsage
                    { user_uuid := userId
                      credit_used := some 0
                      credit_total := jsParseInt (jsOr metadata.credit "1000")
                      period_start := clk.now
                      period_end := newPeriodEnd } st1
              (okResponse, st2)
        else if webhook.eventType = some "subscription.canceled" then
          match o.metadata with
          | none => (errResponse, st)
          | some metadata =>
            (okResponse, updateUserSubscription
              { user_uuid := metadata.userId
                subscription_plan_id := none
                status := some UserSubscriptionStatusEnum.CANCELLED
                current_period_start := none
                current_period_end := none
                stripe_subscription_id := some o.id
                stripe_customer_id := none } st)
        else if webhook.eventType = some "subscription.expired" then
          match o.metadata with
          | none => (errResponse, st)
          | some metadata =>
            (okResponse, updateUserSubscription
              { user_uuid := metadata.userId
                subscription_plan_id := none
                status := some UserSubscriptionStatusEnum.EXPIRED
                current_period_start := none
                current_period_end := none
                stripe_subscription_id := some o.id
                stripe_customer_id := none } st)
        else
          (okResponse, st)

/-- Payment-history row the one-time checkout.completed path creates
for payload object o (lines 145-152 of the route). -/
def checkoutPaymentRecord (o : WebhookObject) : PaymentHistory :=
  { user_uuid := o.request_id
    subscription_plan_id := jsParseInt (jsOr (o.metadata.bind Metadata.subscriptionPlanId) "1")
    amount := jsParseFloat (jsOr (o.metadata.bind Metadata.amount) "0")
    interval := jsOr (o.metadata.bind Metadata.interval) "month"
    payment_status := "completed"
    payment_intent_id := o.id }

/-- Credit-usage update payload of the one-time path when the existing
record is cu (lines 135-141 of the route). -/
def checkoutCreditUpdate (clk : Clock) (o : WebhookObject) (cu : CreditUsage) : CreditUsage :=
  { user_uuid := o.request_id
    credit_used := cu.credit_used
    credit_total := jsAdd cu.credit_total (jsParseInt (jsOr (o.metadata.bind Metadata.credit) "100"))
    period_start := cu.period_start
    period_end := if cu.period_end > clk.plusMonth clk.now then cu.period_end else clk.plusMonth clk.now }

/-- Period end computed by the subscription.paid path: one year ahead
when the metadata interval is the string year, else one month ahead. -/
def paidPeriodEnd (clk : Clock) (m : Metadata) : Int :=
  if m.interval = some "year" then clk.plusYear clk.now else clk.plusMonth clk.now

/-- Subscription record the subscription.paid path creates when the
user has none (lines 195-203 of the route). -/
def paidSubRecord (clk : Clock) (o : WebhookObject) (m : Metadata) (c : Customer) : UserSubscription :=
  { user_uuid := m.userId
    subscription_plan_id := jsParseInt (jsOr m.subscriptionPlanId "1")
    status := UserSubscriptionStatusEnum.ACTIVE
    current_period_start := clk.now
    current_period_end := paidPeriodEnd clk m
    stripe_subscription_id := o.id
    stripe_customer_id := c.id }

/-- Full update payload the subscription.paid path sends when the user
already has a subscription record (lines 205-213 of the route). -/
def paidSubPatch (clk : Clock) (o : WebhookObject) (m : Metadata) (c : Customer) : SubscriptionPatch :=
  { user_uuid := m.userId
    subscription_plan_id := some (jsParseInt (jsOr m.subscriptionPlanId "1"))
    status := some UserSubscriptionStatusEnum.ACTIVE
    current_period_start := some clk.now
    current_period_end := some (paidPeriodEnd clk m)
    stripe_subscription_id := some o.id
    stripe_customer_id := some c.id }

/-- Credit-usage payload the subscription.paid path writes, for both
the create and the update call (lines 220-234 of the route). -/
def paidCreditRecord (clk : Clock) (m : Metadata) : CreditUsage :=
  { user_uuid := m.userId
    credit_used := some 0
    credit_total := jsParseInt (jsOr m.credit "1000")
    period_start := clk.now
    period_end := paidPeriodEnd clk m }

/-- A concrete clock for evaluating the model at specific inputs. -/
def clock0 : Clock :=
  { now := 0, plusMonth := fun t => t + 30, plusYear := fun t => t + 365 }

/-- The empty store: no credit-usage, subscription or payment rows. -/
def emptyStore : Store := { credits := [], subs := [], payments := [] }

/-- A checkout.completed event on a one-time product for user u1 with
metadata credit 50, as in the specification's scenario (with the
customer object present, which the handler dereferences). -/
def checkoutEventU1 : Webhook :=
  { id := some "evt_1"
    eventType := some "checkout.completed"
    object := some
      { request_id := some "u1"
        id := some "pay_1"
        customer := some { id := some "cus_1" }
        product := some { id := some "prod_1", billing_type := some "one-time" }
        status := some "paid"
        metadata := some
          { userId := none
            credit := some "50"
            subscriptionPlanId := none
            amount := none
            interval := none } } }

/-- An existing credit-usage row for user u1: 20 of 100 credits used,
period ending at 100 (later than clock0 now plus one month). -/
def cuU1 : CreditUsage :=
  { user_uuid := some "u1", credit_used := some 20, credit_total := some 100
    period_start := -5, period_end := 100 }

/-- A store holding only the u1 credit-usage row. -/
def storeWithU1 : Store := { credits := [cuU1], subs := [], payments := [] }

/-- A subscription.paid event on a recurring product for user u2 with a
yearly interval and plan id 2 in the metadata. -/
def paidEventU2 : Webhook :=
  { id := some "evt_3"
    eventType := some "subscription.paid"
    object := some
      { request_id := none
        id := some "sub_1"
        customer := some { id := some "cus_2" }
        product := some { id := some "prod_2", billing_type := some "recurring" }
        status := some "paid"
        metadata := some
          { userId := some "u2"
            credit := none
            subscriptionPlanId := some "2"
            amount := none
            interval := some "year" } } }

/-- An existing ACTIVE subscription row for user u2 (plan 9, an old
period) with stripe ids matching the event payloads for u2. -/
def subU2 : UserSubscription :=
  { user_uuid := some "u2", subscription_plan_id := some 9
    status := UserSubscriptionStatusEnum.ACTIVE
    current_period_start := -40, current_period_end := -10
    stripe_subscription_id := some "sub_1", stripe_customer_id := some "cus_2" }

/-- An existing credit-usage row for user u2 with nonzero usage. -/
def cuU2 : CreditUsage :=
  { user_uuid := some "u2", credit_used := some 700, credit_total := some 1000
    period_start := -40, period_end := -10 }

/-- A store holding the u2 subscription and credit-usage rows. -/
def storeWithU2 : Store := { credits := [cuU2], subs := [subU2], payments := [] }

/-- A subscription.canceled event on a recurring product for user u2,
referring to the stored subscription id. -/
def cancelEventU2 : Webhook :=
  { id := some "evt_4"
    eventType := some "subscription.canceled"
    object := some
      { request_id := none
        id := some "sub_1"
        customer := none
        product := some { id := some "prod_2", billing_type := some "recurring" }
        status := some "canceled"
        metadata := some
          { userId := some "u2", credit := none, subscriptionPlanId := none
            amount := none, interval := none } } }

/-- The same event as cancelEventU2 with eventType subscription.expired. -/
def expireEventU2 : Webhook :=
  { id := some "evt_5"
    eventType := some "subscription.expired"
    object := cancelEventU2.object }

/-- An event built from the given parts whose metadata lacks the three
defaulted fields credit, subscriptionPlanId and interval. -/
def strippedEvent (i et : Option String) (o : WebhookObject) (m : Metadata) : Webhook :=
  { id := i
    eventType := et
    object :=
      some
        { o with
          metadata :=
            some { m with credit := none, subscriptionPlanId := none, interval := none } } }

/-- The same event with the three defaulted fields set explicitly to
the documented defaults: credit 1000 on a recurring product else 100,
plan id 1, interval month. -/
def defaultedEvent (i et : Option String) (o : WebhookObject) (m : Metadata) : Webhook :=
  { id := i
    eventType := et
    object :=
      some
        { o with
          metadata :=
            some
              { m with
                credit :=
                  some (if o.product.map Product.billing_type = some (some "recurring")
                    then "1000" else "100")
                subscriptionPlanId := some "1"
                interval := some "month" } } }

/-- The keep-the-later-period-end selection of the one-time path is the
maximum of the two candidates. -/
theorem ite_gt_eq_max (a b : Int) : (if a > b then a else b) = max a b := by
  split <;> omega

/-- Creating a subscription row leaves the credit-usage lookup alone. -/
theorem getCredit_createSub (u : Option String) (s : UserSubscription) (st : Store) :
    getCreditUsageByUserId u (createUserSubscription s st) = getCreditUsageByUserId u st := rfl

/-- Updating subscription rows leaves the credit-usage lookup alone. -/
theorem getCredit_updateSub (u : Option String) (p : SubscriptionPatch) (st : Store) :
    getCreditUsageByUserId u (updateUserSubscription p st) = getCreditUsageByUserId u st := rfl

/-- Shape of a successful run of the one-time checkout.completed path:
the existing credit-usage row is replaced by the additive update and
the completed payment row is appended. -/
theorem creemPOST_checkout_eq (clk : Clock) (ev : Webhook) (st : Store)
    (o : WebhookObject) (product : Product) (c : Customer) (cu : CreditUsage)
    (hobj : ev.object = some o) (hprod : o.product = some product)
    (hbt : product.billing_type ≠ some "recurring")
    (het : ev.eventType = some "checkout.completed")
    (hcust : o.customer = some c)
    (hcu : getCreditUsageByUserId o.request_id st = some cu) :
    creemPOST clk ev st =
      (okResponse,
        createPaymentHistory (checkoutPaymentRecord o)
          (updateCreditUsage (checkoutCreditUpdate clk o cu) st)) := by
  simp only [creemPOST, hobj, hprod, het, hcust, hcu]
  simp [hbt, checkoutPaymentRecord, checkoutCreditUpdate]

/-- C1: the claim says a one-time checkout.completed event for a user
with no existing credit-usage record creates a credit-usage record and
a payment-history row and acknowledges with 200.  The code instead
reads period_end of the absent record before its null check, so the
lookup result undefined throws a TypeError and the handler answers the
generic 500 with no row created: at the concrete scenario input the
model returns errResponse and the unchanged empty store. -/
theorem checkout_no_record_throws :
    creemPOST clock0 checkoutEventU1 emptyStore = (errResponse, emptyStore) := by
  rfl

/-- C6: a well-formed event whose eventType is not handled on its
billing-type branch performs no store mutation and is still
acknowledged with the 200 success response. -/
theorem unhandled_event_noop (clk : Clock) (ev : Webhook) (st : Store)
    (o : WebhookObject) (product : Product)
    (hobj : ev.object = some o) (hprod : o.product = some product)
    (h : (product.billing_type ≠ some "recurring" ∧ ev.eventType ≠ some "checkout.completed") ∨
         (product.billing_type = some "recurring" ∧ ev.eventType ≠ some "subscription.paid" ∧
          ev.eventType ≠ some "subscription.canceled" ∧ ev.eventType ≠ some "subscription.expired")) :
    creemPOST clk ev st = (okResponse, st) := by
  rcases h with ⟨h1, h2⟩ | ⟨h1, h2, h3, h4⟩ <;>
    simp [creemPOST, hobj, hprod, h1, h2]
  · simp [h3, h4]

/-- Witness for C6: a subscription.paid event on a one-time product is
acknowledged with 200 and leaves the store unchanged. -/
theorem unhandled_event_noop_witness :
    creemPOST clock0
      { id := some "evt_2"
        eventType := some "subscription.paid"
        object := some
          { request_id := some "u1"
            id := some "pay_2"
            customer := some { id := some "cus_1" }
            product := some { id := some "prod_1", billing_type := some "one-time" }
            status := some "paid"
            metadata := none } }
      emptyStore = (okResponse, emptyStore) := by
  exact unhandled_event_noop clock0 _ emptyStore _ _ rfl rfl
    (Or.inl (by simp))

/-- C7: every invocation of the handler produces exactly one of the two
fixed responses: the 200 success acknowledgement (after completing its
store calls), or, when an exception is thrown while processing, the
generic 500 body with the store exactly as it was found (the cause is
never in the response). -/
theorem response_dichotomy (clk : Clock) (ev : Webhook) (st : Store) :
    (∃ st2, creemPOST clk ev st = (okResponse, st2)) ∨
    creemPOST clk ev st = (errResponse, st) := by
  unfold creemPOST
  dsimp only
  repeat' split
  all_goals first
    | exact Or.inl ⟨_, rfl⟩
    | exact Or.inr rfl

/-- C2: a one-time checkout.completed event for a user with an existing
credit-usage record updates it leaving credit_used unchanged, adding
the parsed metadata credit (default 100) to the existing total, keeping
the existing period_start, and setting period_end to the maximum of the
existing period_end and now plus one month; a completed payment row is
appended. -/
theorem checkout_existing_additive (clk : Clock) (ev : Webhook) (st : Store)
    (o : WebhookObject) (product : Product) (c : Customer) (cu : CreditUsage)
    (hobj : ev.object = some o) (hprod : o.product = some product)
    (hbt : product.billing_type ≠ some "recurring")
    (het : ev.eventType = some "checkout.completed")
    (hcust : o.customer = some c)
    (hcu : getCreditUsageByUserId o.request_id st = some cu) :
    creemPOST clk ev st =
      (okResponse,
        createPaymentHistory (checkoutPaymentRecord o)
          (updateCreditUsage
            { user_uuid := o.request_id
              credit_used := cu.credit_used
              credit_total := jsAdd cu.credit_total
                (jsParseInt (jsOr (o.metadata.bind Metadata.credit) "100"))
              period_start := cu.period_start
              period_end := max cu.period_end (clk.plusMonth clk.now) } st)) := by
  rw [creemPOST_checkout_eq clk ev st o product c cu hobj hprod hbt het hcust hcu]
  rw [checkoutCreditUpdate, ite_gt_eq_max]

/-- Witness for C2: the u1 checkout event against the store holding the
u1 credit-usage row with 20 of 100 used and period ending at 100: usage
stays 20, total becomes 150, period keeps its start and its later end,
and the completed payment row for u1 is appended. -/
theorem checkout_existing_additive_witness :
    creemPOST clock0 checkoutEventU1 storeWithU1 =
      (okResponse,
        { credits := [{ user_uuid := some "u1", credit_used := some 20, credit_total := some 150
                        period_start := -5, period_end := 100 }]
          subs := []
          payments := [{ user_uuid := some "u1", subscription_plan_id := some 1
                         amount := some (0, 0), interval := "month", payment_status := "completed"
                         payment_intent_id := some "pay_1" }] }) :=
  (checkout_existing_additive clock0 checkoutEventU1 storeWithU1 _ _ _ cuU1
    rfl rfl (by decide) rfl rfl (by decide)).trans (by decide)

/-- Shape of a successful subscription.paid run when the user has no
subscription record: the ACTIVE record is created and the credit-usage
payload is created or overwritten depending on presence. -/
theorem creemPOST_paid_new_eq (clk : Clock) (ev : Webhook) (st : Store)
    (o : WebhookObject) (product : Product) (c : Customer) (m : Metadata)
    (hobj : ev.object = some o) (hprod : o.product = some product)
    (hbt : product.billing_type = some "recurring")
    (het : ev.eventType = some "subscription.paid")
    (hmeta : o.metadata = some m) (hcust : o.customer = some c)
    (hsub : getUserSubscriptionByUserId m.userId st = []) :
    creemPOST clk ev st =
      (okResponse,
        if (getCreditUsageByUserId m.userId st).isNone then
          createCreditUsage (paidCreditRecord clk m)
            (createUserSubscription (paidSubRecord clk o m c) st)
        else
          updateCreditUsage (paidCreditRecord clk m)
            (createUserSubscription (paidSubRecord clk o m c) st)) := by
  simp only [creemPOST, hobj, hprod, het, hmeta, hcust, hbt]
  simp only [not_true, if_false, reduceIte, hsub, List.isEmpty_nil]
  simp only [getCredit_createSub]
  cases hcu : getCreditUsageByUserId m.userId st <;>
    simp [hcu, paidCreditRecord, paidSubRecord, paidPeriodEnd]

/-- C3: a subscription.paid event on a recurring product for a user
with no existing subscription record creates one with status ACTIVE,
period from now to now plus one year when the metadata interval is
year, else one month, the event object id and customer id as external
ids, and writes credit usage 0 of parsed credit (default 1000) over the
same period, creating the credit record when absent. -/
theorem subscription_paid_creates (clk : Clock) (ev : Webhook) (st : Store)
    (o : WebhookObject) (product : Product) (c : Customer) (m : Metadata)
    (hobj : ev.object = some o) (hprod : o.product = some product)
    (hbt : product.billing_type = some "recurring")
    (het : ev.eventType = some "subscription.paid")
    (hmeta : o.metadata = some m) (hcust : o.customer = some c)
    (hsub : getUserSubscriptionByUserId m.userId st = []) :
    creemPOST clk ev st =
      (okResponse,
        if (getCreditUsageByUserId m.userId st).isNone then
          createCreditUsage
            { user_uuid := m.userId, credit_used := some 0
              credit_total := jsParseInt (jsOr m.credit "1000")
              period_start := clk.now, period_end := paidPeriodEnd clk m }
            (createUserSubscription
              { user_uuid := m.userId
                subscription_plan_id := jsParseInt (jsOr m.subscriptionPlanId "1")
                status := UserSubscriptionStatusEnum.ACTIVE
                current_period_start := clk.now
                current_period_end := paidPeriodEnd clk m
                stripe_subscription_id := o.id
                stripe_customer_id := c.id } st)
        else
          updateCreditUsage
            { user_uuid := m.userId, credit_used := some 0
              credit_total := jsParseInt (jsOr m.credit "1000")
              period_start := clk.now, period_end := paidPeriodEnd clk m }
            (createUserSubscription
              { user_uuid := m.userId
                subscription_plan_id := jsParseInt (jsOr m.subscriptionPlanId "1")
                status := UserSubscriptionStatusEnum.ACTIVE
                current_period_start := clk.now
                current_period_end := paidPeriodEnd clk m
                stripe_subscription_id := o.id
                stripe_customer_id := c.id } st)) :=
  creemPOST_paid_new_eq clk ev st o product c m hobj hprod hbt het hmeta hcust hsub

/-- Witness for C3: the u2 yearly subscription.paid event against the
empty store creates the ACTIVE subscription over period 0..365 with the
event ids and the fresh credit record 0 of 1000. -/
theorem subscription_paid_creates_witness :
    creemPOST clock0 paidEventU2 emptyStore =
      (okResponse,
        { credits := [{ user_uuid := some "u2", credit_used := some 0, credit_total := some 1000
                        period_start := 0, period_end := 365 }]
          subs := [{ user_uuid := some "u2", subscription_plan_id := some 2
                     status := UserSubscriptionStatusEnum.ACTIVE
                     current_period_start := 0, current_period_end := 365
                     stripe_subscription_id := some "sub_1"
                     stripe_customer_id := some "cus_2" }]
          payments := [] }) :=
  (subscription_paid_creates clock0 paidEventU2 emptyStore _ _ _ _
    rfl rfl rfl rfl rfl rfl rfl).trans (by decide)

/-- C4: a subscription.paid event on a recurring product for a user
with an existing subscription record overwrites its plan id, status (to
ACTIVE), period (anchored at now), and external ids unconditionally,
and resets the existing credit-usage record to 0 used of parsed credit
(default 1000) regardless of its prior values. -/
theorem subscription_paid_overwrites (clk : Clock) (ev : Webhook) (st : Store)
    (o : WebhookObject) (product : Product) (c : Customer) (m : Metadata) (cu : CreditUsage)
    (hobj : ev.object = some o) (hprod : o.product = some product)
    (hbt : product.billing_type = some "recurring")
    (het : ev.eventType = some "subscription.paid")
    (hmeta : o.metadata = some m) (hcust : o.customer = some c)
    (hsub : getUserSubscriptionByUserId m.userId st ≠ [])
    (hcu : getCreditUsageByUserId m.userId st = some cu) :
    creemPOST clk ev st =
      (okResponse,
        updateCreditUsage (paidCreditRecord clk m)
          (updateUserSubscription (paidSubPatch clk o m c) st)) ∧
    ∀ s ∈ (updateUserSubscription (paidSubPatch clk o m c) st).subs,
      s.user_uuid = m.userId → s = paidSubRecord clk o m c := by
  constructor
  · simp only [creemPOST, hobj, hprod, het, hmeta, hcust, hbt]
    cases hl : getUserSubscriptionByUserId m.userId st with
    | nil => exact absurd hl hsub
    | cons a l =>
      simp only [hl, List.isEmpty_cons, Bool.false_eq_true, if_false, reduceIte]
      simp only [getCredit_updateSub, hcu]
      simp [paidCreditRecord, paidSubPatch, paidPeriodEnd]
  · intro s hs hsu
    simp only [updateUserSubscription, List.mem_map] at hs
    obtain ⟨a, ha, rfl⟩ := hs
    by_cases h : a.user_uuid = m.userId
    · simp [paidSubPatch, h, applyPatch, paidSubRecord]
    · simp [paidSubPatch, h] at hsu

/-- Witness for C4: the u2 yearly subscription.paid event against the
store holding the cancelled u2 subscription (plan 9, old period) and a
700-of-1000 credit record: the subscription is overwritten to ACTIVE
plan 2 over 0..365 and the credit record is reset to 0 of 1000. -/
theorem subscription_paid_overwrites_witness :
    creemPOST clock0 paidEventU2 storeWithU2 =
      (okResponse,
        { credits := [{ user_uuid := some "u2", credit_used := some 0, credit_total := some 1000
                        period_start := 0, period_end := 365 }]
          subs := [{ user_uuid := some "u2", subscription_plan_id := some 2
                     status := UserSubscriptionStatusEnum.ACTIVE
                     current_period_start := 0, current_period_end := 365
                     stripe_subscription_id := some "sub_1"
                     stripe_customer_id := some "cus_2" }]
          payments := [] }) :=
  ((subscription_paid_overwrites clock0 paidEventU2 storeWithU2 _ _ _ _ cuU2
    rfl rfl rfl rfl rfl rfl (by decide) rfl).1).trans (by decide)

/-- A status-only partial update, sent with the subscription id the
stored rows already carry, rewrites exactly the status field of the
user's rows and nothing else. -/
theorem updateStatusPatch_map (u : Option String) (sid : Option String) (st : Store)
    (stat : UserSubscriptionStatusEnum)
    (hids : ∀ s ∈ st.subs, s.user_uuid = u → s.stripe_subscription_id = sid) :
    updateUserSubscription
      { user_uuid := u, subscription_plan_id := none, status := some stat
        current_period_start := none, current_period_end := none
        stripe_subscription_id := some sid, stripe_customer_id := none } st =
    { st with subs := st.subs.map (fun s =>
        if s.user_uuid = u then { s with status := stat } else s) } := by
  have hmap : st.subs.map (fun s =>
        if s.user_uuid = u then
          applyPatch
            { user_uuid := u, subscription_plan_id := none, status := some stat
              current_period_start := none, current_period_end := none
              stripe_subscription_id := some sid, stripe_customer_id := none } s
        else s)
      = st.subs.map (fun s =>
        if s.user_uuid = u then { s with status := stat } else s) :=
    List.map_congr_left (fun a ha => by
      by_cases h : a.user_uuid = u
      · simp [h, applyPatch, hids a ha h]
      · simp [h])
  simp only [updateUserSubscription]
  rw [hmap]

/-- C5: a subscription.canceled event on a recurring product changes
only the status field of the user's subscription rows (to CANCELLED),
and a subscription.expired event changes only the status field (to
EXPIRED); the credit-usage and payment-history tables and all period
fields are untouched.  The hypothesis hids states that the stored
subscription rows of the user carry the subscription id the event
refers to, as the partial update is keyed on ids that agree. -/
theorem cancel_expire_status_only (clk : Clock) (ev : Webhook) (st : Store)
    (o : WebhookObject) (product : Product) (m : Metadata)
    (hobj : ev.object = some o) (hprod : o.product = some product)
    (hbt : product.billing_type = some "recurring")
    (hmeta : o.metadata = some m)
    (hids : ∀ s ∈ st.subs, s.user_uuid = m.userId → s.stripe_subscription_id = o.id) :
    (ev.eventType = some "subscription.canceled" →
      creemPOST clk ev st =
        (okResponse,
          { st with subs := st.subs.map (fun s =>
              if s.user_uuid = m.userId then
                { s with status := UserSubscriptionStatusEnum.CANCELLED }
              else s) })) ∧
    (ev.eventType = some "subscription.expired" →
      creemPOST clk ev st =
        (okResponse,
          { st with subs := st.subs.map (fun s =>
              if s.user_uuid = m.userId then
                { s with status := UserSubscriptionStatusEnum.EXPIRED }
              else s) })) := by
  refine ⟨fun het => ?_, fun het => ?_⟩ <;>
  · simp only [creemPOST, hobj, hprod, hmeta, het, hbt]
    simp only [Option.some.injEq, not_true, if_false, reduceIte, String.reduceEq]
    rw [updateStatusPatch_map m.userId o.id st _ hids]

/-- Witness for C5: against the store holding the ACTIVE u2
subscription (plan 9, period -40..-10) and its credit row, the cancel
event only flips the status to CANCELLED and the expire event only to
EXPIRED, leaving plan, period, ids, credits and payments as they were. -/
theorem cancel_expire_status_only_witness :
    creemPOST clock0 cancelEventU2 storeWithU2 =
      (okResponse,
        { credits := [cuU2]
          subs := [{ user_uuid := some "u2", subscription_plan_id := some 9
                     status := UserSubscriptionStatusEnum.CANCELLED
                     current_period_start := -40, current_period_end := -10
                     stripe_subscription_id := some "sub_1"
                     stripe_customer_id := some "cus_2" }]
          payments := [] }) ∧
    creemPOST clock0 expireEventU2 storeWithU2 =
      (okResponse,
        { credits := [cuU2]
          subs := [{ user_uuid := some "u2", subscription_plan_id := some 9
                     status := UserSubscriptionStatusEnum.EXPIRED
                     current_period_start := -40, current_period_end := -10
                     stripe_subscription_id := some "sub_1"
                     stripe_customer_id := some "cus_2" }]
          payments := [] }) :=
  ⟨((cancel_expire_status_only clock0 cancelEventU2 storeWithU2 _ _ _
      rfl rfl rfl rfl (by decide)).1 rfl).trans (by decide),
   ((cancel_expire_status_only clock0 expireEventU2 storeWithU2 _ _ _
      rfl rfl rfl rfl (by decide)).2 rfl).trans (by decide)⟩

/-- C8: replacing the defaulted metadata fields (credit, plan id,
interval) by their documented defaults (credit 100 on the one-time
path, 1000 on the recurring path, plan id 1, interval month) gives
exactly the same response and store as leaving them absent: absence of
any of these fields never causes a failure and completes the same
mutations. -/
theorem metadata_defaults (clk : Clock) (st : Store) (i et : Option String)
    (o : WebhookObject) (m : Metadata) :
    creemPOST clk (strippedEvent i et o m) st =
    creemPOST clk (defaultedEvent i et o m) st := by
  unfold creemPOST strippedEvent defaultedEvent
  dsimp only
  cases hp : o.product with
  | none => rfl
  | some p =>
    by_cases hb : p.billing_type = some "recurring" <;> simp [hb, jsOr]

/-- C9: the user identifier keying the rows the handler writes is the
request_id field of the payload on the one-time checkout path, and the
metadata userId field on the subscription.paid path. -/
theorem user_id_sourcing (clk : Clock) (st : Store) (ev : Webhook)
    (o : WebhookObject) (product : Product) (c : Customer) (m : Metadata) (cu : CreditUsage) :
    (ev.object = some o → o.product = some product →
     product.billing_type ≠ some "recurring" →
     ev.eventType = some "checkout.completed" →
     o.customer = some c →
     getCreditUsageByUserId o.request_id st = some cu →
     ∃ prow crow, (creemPOST clk ev st).2.payments = st.payments ++ [prow] ∧
       prow.user_uuid = o.request_id ∧
       (creemPOST clk ev st).2.credits = (updateCreditUsage crow st).credits ∧
       crow.user_uuid = o.request_id) ∧
    (ev.object = some o → o.product = some product →
     product.billing_type = some "recurring" →
     ev.eventType = some "subscription.paid" →
     o.metadata = some m → o.customer = some c →
     getUserSubscriptionByUserId m.userId st = [] →
     getCreditUsageByUserId m.userId st = none →
     ∃ srow crow, (creemPOST clk ev st).2.subs = st.subs ++ [srow] ∧
       srow.user_uuid = m.userId ∧
       (creemPOST clk ev st).2.credits = st.credits ++ [crow] ∧
       crow.user_uuid = m.userId) := by
  constructor
  · intro hobj hprod hbt het hcust hcu
    rw [creemPOST_checkout_eq clk ev st o product c cu hobj hprod hbt het hcust hcu]
    exact ⟨checkoutPaymentRecord o, checkoutCreditUpdate clk o cu, rfl, rfl, rfl, rfl⟩
  · intro hobj hprod hbt het hmeta hcust hsub hcu
    rw [creemPOST_paid_new_eq clk ev st o product c m hobj hprod hbt het hmeta hcust hsub]
    refine ⟨paidSubRecord clk o m c, paidCreditRecord clk m, ?_⟩
    simp only [hcu, Option.isNone_none, reduceIte]
    exact ⟨rfl, rfl, rfl, rfl⟩

/-- Witness for C9: on the one-time checkout event the appended payment
row and the rewritten credit row are keyed by u1 from request_id; on
the subscription.paid event the created subscription and credit rows
are keyed by u2 from metadata userId. -/
theorem user_id_sourcing_witness :
    (∃ prow crow,
      (creemPOST clock0 checkoutEventU1 storeWithU1).2.payments = storeWithU1.payments ++ [prow] ∧
      prow.user_uuid = some "u1" ∧
      (creemPOST clock0 checkoutEventU1 storeWithU1).2.credits = (updateCreditUsage crow storeWithU1).credits ∧
      crow.user_uuid = some "u1") ∧
    (∃ srow crow,
      (creemPOST clock0 paidEventU2 emptyStore).2.subs = emptyStore.subs ++ [srow] ∧
      srow.user_uuid = some "u2" ∧
      (creemPOST clock0 paidEventU2 emptyStore).2.credits = emptyStore.credits ++ [crow] ∧
      crow.user_uuid = some "u2") :=
  ⟨(user_id_sourcing clock0 storeWithU1 checkoutEventU1 _ _ _
      ⟨none, none, none, none, none⟩ cuU1).1 rfl rfl (by decide) rfl rfl rfl,
   (user_id_sourcing clock0 emptyStore paidEventU2 _ _ _ _ cuU1).2
      rfl rfl rfl rfl rfl rfl rfl rfl⟩

/-- Every run of the handler either leaves the payment-history table
unchanged or appends exactly one row, and that row has payment status
completed: the one-time checkout path is the only creation site. -/
theorem creemPOST_payments_shape (clk : Clock) (ev : Webhook) (st : Store) :
    (creemPOST clk ev st).2.payments = st.payments ∨
    ∃ row, (creemPOST clk ev st).2.payments = st.payments ++ [row] ∧
      row.payment_status = "completed" := by
  unfold creemPOST
  dsimp only
  repeat' split
  all_goals first
    | exact Or.inl rfl
    | exact Or.inr ⟨_, rfl, rfl⟩

/-- C10: rows created by the handler carry payment status completed,
and hasSuccessfulPaymentByUserId counts only rows with status success;
hence for a user all of whose payment rows came from this handler the
query answers false, and the handler preserves that situation. -/
theorem webhook_payments_never_success (clk : Clock) (ev : Webhook) (st : Store) (u : String)
    (h : ∀ r ∈ st.payments, r.user_uuid = some u → r.payment_status = "completed") :
    (∀ r ∈ (creemPOST clk ev st).2.payments,
        r.user_uuid = some u → r.payment_status = "completed") ∧
    hasSuccessfulPaymentByUserId u (creemPOST clk ev st).2 = false := by
  have hall : ∀ r ∈ (creemPOST clk ev st).2.payments,
      r.user_uuid = some u → r.payment_status = "completed" := by
    rcases creemPOST_payments_shape clk ev st with heq | ⟨row, heq, hrow⟩
    · rw [heq]; exact h
    · rw [heq]
      intro r hr hu
      rcases List.mem_append.mp hr with h1 | h2
      · exact h r h1 hu
      · simp only [List.mem_singleton] at h2
        subst h2; exact hrow
  refine ⟨hall, ?_⟩
  have hnil : ((creemPOST clk ev st).2.payments.filter
      (fun r => r.user_uuid == some u && r.payment_status == "success")) = [] := by
    apply List.filter_eq_nil_iff.mpr
    intro r hr
    by_cases hu : r.user_uuid = some u
    · have hc := hall r hr hu
      simp [hu, hc]
    · simp [hu]
  simp [hasSuccessfulPaymentByUserId, hnil]

/-- Witness for C10: starting from the store whose payment table is
empty, the u1 checkout run leaves only completed rows for u1 and the
successful-payment query answers false on the resulting store. -/
theorem webhook_payments_never_success_witness :
    (∀ r ∈ (creemPOST clock0 checkoutEventU1 storeWithU1).2.payments,
        r.user_uuid = some "u1" → r.payment_status = "completed") ∧
    hasSuccessfulPaymentByUserId "u1" (creemPOST clock0 checkoutEventU1 storeWithU1).2 = false :=
  webhook_payments_never_success clock0 checkoutEventU1 storeWithU1 "u1" (by decide)

end Creem
